import Mathlib

/-!
Verification of the inquiry-intake backend.

This file shallowly embeds the handler `create_inquiry` of
`src/backend/main.py` together with the Pydantic schemas of
`src/schemas.py`, and proves properties about the embedding.

Modelling decisions:
* Uploaded bytes are `List Nat`; the byte length is the list length.
* The disk is an association list of `(path, content)` pairs; a write
  prepends, so a lookup that takes the first hit sees last-write-wins.
* Per-file I/O outcomes (the `await f.read()` / `open` / `write` calls,
  any of which may raise) are an oracle `ioFail : Nat → Option String`:
  `none` at index `i` means file `i`'s I/O succeeds, `some msg` means it
  raises an exception whose string form is `msg`.
* The outcome of `create_document` is an oracle
  `dbResult : Except String String` (error message or generated id).
* Python's truthiness idiom `x or d` on an optional string is `pyOr`;
  the slice `s[:100]` is `pyTruncate s 100`.
* A Pydantic `ValidationError` escaping the handler is converted by
  FastAPI to an HTTP 500 response with detail `"Internal Server Error"`;
  an `HTTPException(status_code=500, detail=d)` is `HTTPError.mk 500 d`.
-/

deriving instance DecidableEq for Except

/-- Schema `InquiryFile` of `src/schemas.py`: metadata of one uploaded file. -/
structure InquiryFile where
  filename : String
  content_type : Option String := none
  size : Option Nat := none
  deriving DecidableEq

/-- Schema `Inquiry` of `src/schemas.py` (collection "inquiry").
The `email` field carries the string accepted by the `EmailStr` check. -/
structure Inquiry where
  name : String
  email : String
  phone : String
  zip_city : String
  project_type : String
  description : String
  files : List InquiryFile
  source : Option String
  deriving DecidableEq

/-- One multipart file part as the handler sees it: original filename,
declared content type (if any), and the full byte content. -/
structure FileUpload where
  filename : String
  content_type : Option String
  content : List Nat
  deriving DecidableEq

/-- An HTTP error response (`HTTPException` or a framework-level 500). -/
structure HTTPError where
  status : Nat
  detail : String
  deriving DecidableEq

/-- Response model `InquiryResponse` of `src/backend/main.py`. -/
structure InquiryResponse where
  id : String
  message : String
  deriving DecidableEq

/-- The uploads directory content: `(path, bytes)` pairs, most recent first. -/
abbrev Disk := List (String × List Nat)

/-- Writing a file: prepend; the newest entry for a path shadows older ones. -/
def diskWrite (d : Disk) (p : String) (c : List Nat) : Disk :=
  (p, c) :: d

/-- State outside the handler: the uploads directory and the records that
have been inserted into the store, as `(collection, record)` pairs. -/
structure World where
  disk : Disk
  inserted : List (String × Inquiry)
  deriving DecidableEq

/-- Python `x or d` for an optional string: `None` and `""` are falsy. -/
def pyOr (x : Option String) (d : String) : String :=
  match x with
  | none => d
  | some s => if s = "" then d else s

/-- Python `s[:n]`: the first `n` characters of `s`. -/
def pyTruncate (s : String) (n : Nat) : String :=
  ⟨s.data.take n⟩

/-- `f.filename.replace("/", "_").replace("\\", "_")` acts character by
character: each `/` or `\` becomes `_`. -/
def sanChar (c : Char) : Char :=
  if c = '/' ∨ c = '\\' then '_' else c

/-- The sanitized filename (`safe_name` in `create_inquiry`). -/
def sanitize (s : String) : String :=
  ⟨s.data.map sanChar⟩

/-- Splitting a character list at every occurrence of `c`
(the character-level analogue of Python's `str.split`). -/
def splitOnChar (c : Char) : List Char → List (List Char)
  | [] => [[]]
  | x :: xs =>
    match splitOnChar c xs with
    | [] => [[]]
    | h :: t => if x = c then [] :: h :: t else (x :: h) :: t

/-- Modelled from the spec: the `EmailStr` syntax check of the Pydantic
`Inquiry` schema. The email-validator library behind `EmailStr` is not
part of this repository's sources; the spec only requires that `email`
"must satisfy standard email syntax" and that `"not-an-email"` is
rejected. We model the check as: exactly one `@`, a non-empty local
part, a domain with at least two non-empty dot-separated labels, and no
space anywhere. -/
def isValidEmail (s : String) : Bool :=
  match splitOnChar '@' s.data with
  | [lp, dom] =>
    decide (lp ≠ []) &&
    (splitOnChar '.' dom).length ≥ 2 &&
    (splitOnChar '.' dom).all (fun l => decide (l ≠ [])) &&
    s.data.all (fun c => decide (c ≠ ' '))
  | _ => false

/-- The `InquiryFile` record built for one upload in the loop body of
`create_inquiry`: sanitized name, declared content type with the
`or "application/octet-stream"` fallback, and the byte length. -/
def fileEntry (f : FileUpload) : InquiryFile :=
  { filename := sanitize f.filename
    content_type := some (pyOr f.content_type "application/octet-stream")
    size := some f.content.length }

/-- The destination path `os.path.join(upload_dir, safe_name)` relative to
the working directory. -/
def destPath (f : FileUpload) : String :=
  "uploads/" ++ sanitize f.filename

/-- The `for f in files` loop of `create_inquiry`: processes the uploads in
input order starting at index `i`, writing each to disk and accumulating
metadata, and stops at the first file whose I/O raises, returning the disk
as written so far (no rollback) and the exception message. -/
def writeFiles (files : List FileUpload) (ioFail : Nat → Option String)
    (i : Nat) (disk : Disk) (meta : List InquiryFile) :
    Disk × Except String (List InquiryFile) :=
  match files with
  | [] => (disk, .ok meta)
  | f :: rest =>
    match ioFail i with
    | some e => (disk, .error e)
    | none =>
      writeFiles rest ioFail (i + 1)
        (diskWrite disk (destPath f) f.content) (meta ++ [fileEntry f])

/-- The disk after writing every upload of `fs` in order. -/
def writeAll (disk : Disk) (fs : List FileUpload) : Disk :=
  fs.foldl (fun d f => diskWrite d (destPath f) f.content) disk

/-- The handler `create_inquiry` of `src/backend/main.py`.

Mirrors the source order: the file loop runs first; then the `Inquiry`
record is constructed (Pydantic validates `email` here — a failure
escapes as a 500 `"Internal Server Error"`); then `create_document`
is attempted inside `try`, mapping success to the success response and
an exception to `HTTPException(500, "Datenbankfehler: " + str(e)[:100])`.
A file-loop exception became
`HTTPException(500, "Fehler beim Datei-Upload: " + str(e)[:100])`. -/
def create_inquiry (name email phone zip_city project_type description : String)
    (source : Option String) (files : List FileUpload)
    (ioFail : Nat → Option String) (dbResult : Except String String)
    (w : World) : Except HTTPError InquiryResponse × World :=
  match writeFiles files ioFail 0 w.disk [] with
  | (disk1, .error e) =>
    (.error ⟨500, "Fehler beim Datei-Upload: " ++ pyTruncate e 100⟩,
     { disk := disk1, inserted := w.inserted })
  | (disk1, .ok meta) =>
    if isValidEmail email then
      let inquiry : Inquiry :=
        { name := name, email := email, phone := phone, zip_city := zip_city,
          project_type := project_type, description := description,
          files := meta, source := some (pyOr source "website") }
      match dbResult with
      | .ok inserted_id =>
        (.ok ⟨inserted_id, "Anfrage erfolgreich übermittelt"⟩,
         { disk := disk1, inserted := w.inserted ++ [("inquiry", inquiry)] })
      | .error e =>
        (.error ⟨500, "Datenbankfehler: " ++ pyTruncate e 100⟩,
         { disk := disk1, inserted := w.inserted })
    else
      (.error ⟨500, "Internal Server Error"⟩,
       { disk := disk1, inserted := w.inserted })

/-! ## Helper lemmas -/

/-- When no I/O call fails for the files of `fs`, the loop writes every file
in order and returns the metadata entries in input order. -/
theorem writeFiles_ok (fs : List FileUpload) (ioFail : Nat → Option String)
    (i : Nat) (disk : Disk) (meta : List InquiryFile)
    (h : ∀ j, j < fs.length → ioFail (i + j) = none) :
    writeFiles fs ioFail i disk meta =
      (writeAll disk fs, .ok (meta ++ fs.map fileEntry)) := by
  induction fs generalizing i disk meta with
  | nil => simp [writeFiles, writeAll]
  | cons f rest ih =>
    have h0 : ioFail i = none := by simpa using h 0 (by simp)
    have h' : ∀ j, j < rest.length → ioFail (i + 1 + j) = none := by
      intro j hj
      have := h (j + 1) (by simpa using Nat.succ_lt_succ hj)
      simpa [Nat.add_comm, Nat.add_left_comm, Nat.add_assoc] using this
    simp only [writeFiles, h0]
    rw [ih (i + 1) _ _ h']
    simp [writeAll, List.append_assoc]

/-- When the first I/O failure happens at index `j`, the loop stops there:
only the first `j` files were written, and the exception message is returned. -/
theorem writeFiles_fail (fs : List FileUpload) (ioFail : Nat → Option String)
    (i j : Nat) (e : String) (disk : Disk) (meta : List InquiryFile)
    (hj : j < fs.length) (hf : ioFail (i + j) = some e)
    (hok : ∀ k, k < j → ioFail (i + k) = none) :
    writeFiles fs ioFail i disk meta = (writeAll disk (fs.take j), .error e) := by
  induction fs generalizing i j disk meta with
  | nil => simp at hj
  | cons f rest ih =>
    cases j with
    | zero =>
      have h0 : ioFail i = some e := by simpa using hf
      simp [writeFiles, h0, writeAll]
    | succ j' =>
      have h0 : ioFail i = none := by simpa using hok 0 (Nat.succ_pos j')
      have hf' : ioFail (i + 1 + j') = some e := by
        simpa [Nat.add_comm, Nat.add_left_comm, Nat.add_assoc] using hf
      have hok' : ∀ k, k < j' → ioFail (i + 1 + k) = none := by
        intro k hk
        have := hok (k + 1) (Nat.succ_lt_succ hk)
        simpa [Nat.add_comm, Nat.add_left_comm, Nat.add_assoc] using this
      have hj' : j' < rest.length := by simpa using Nat.lt_of_succ_lt_succ hj
      simp only [writeFiles, h0]
      rw [ih (i + 1) j' _ _ hj' hf' hok']
      simp [writeAll, List.take_succ_cons]

/-- The truncation `s[:n]` has at most `n` characters. -/
theorem pyTruncate_length (s : String) (n : Nat) : (pyTruncate s n).length ≤ n := by
  show (s.data.take n).length ≤ n
  rw [List.length_take]
  exact Nat.min_le_left _ _

/-- The sanitized character is never a path separator. -/
theorem sanChar_ne_sep (c : Char) : sanChar c ≠ '/' ∧ sanChar c ≠ '\\' := by
  unfold sanChar
  split
  · constructor <;> decide
  · rename_i h
    push_neg at h
    exact h

/-- Sanitizing a character twice is the same as sanitizing it once. -/
theorem sanChar_idem (c : Char) : sanChar (sanChar c) = sanChar c := by
  rcases Decidable.em (c = '/' ∨ c = '\\') with h | h
  · have hc : sanChar c = '_' := by simp [sanChar, h]
    rw [hc]
    decide
  · have hc : sanChar c = c := by simp [sanChar, h]
    rw [hc]
    exact hc

/-- Character-list version of idempotence of sanitization. -/
theorem map_sanChar_idem (l : List Char) : (l.map sanChar).map sanChar = l.map sanChar := by
  induction l with
  | nil => rfl
  | cons c t ih => simp [sanChar_idem c, ih]

/-- The characters of the sanitized name. -/
theorem sanitize_data (s : String) : (sanitize s).data = s.data.map sanChar := rfl

/-- Indexing into the metadata list built by the loop. -/
theorem get?_map_fileEntry (l : List FileUpload) (i : Nat) :
    (l.map fileEntry).get? i = (l.get? i).map fileEntry := by
  induction l generalizing i with
  | nil => cases i <;> rfl
  | cons a t ih => cases i with
    | zero => rfl
    | succ n => exact ih n

/-! ## Claim theorems -/

/-- Claim C5: filename sanitization is total and idempotent — for every input
filename the sanitized result contains neither '/' nor '\', and sanitizing an
already-sanitized name returns it unchanged. -/
theorem sanitize_total_idem (s : String) :
    ('/' ∉ (sanitize s).data ∧ '\\' ∉ (sanitize s).data) ∧
    sanitize (sanitize s) = sanitize s := by
  refine ⟨⟨?_, ?_⟩, ?_⟩
  · intro hmem
    rw [sanitize_data] at hmem
    rcases List.mem_map.1 hmem with ⟨c, _, hc⟩
    exact (sanChar_ne_sep c).1 hc
  · intro hmem
    rw [sanitize_data] at hmem
    rcases List.mem_map.1 hmem with ⟨c, _, hc⟩
    exact (sanChar_ne_sep c).2 hc
  · exact congrArg String.mk (map_sanChar_idem s.data)

/-- Claim C1: when every field is valid, every file write succeeds and the
insert succeeds, exactly one record is appended to the "inquiry" collection;
its files sequence lists the uploads in input order with `size` equal to the
byte length written, and the response is the generated id with the message
"Anfrage erfolgreich übermittelt". -/
theorem create_inquiry_success
    (name email phone zip_city project_type description : String)
    (source : Option String) (files : List FileUpload)
    (ioFail : Nat → Option String) (id : String) (w : World)
    (hio : ∀ i, i < files.length → ioFail i = none)
    (hmail : isValidEmail email = true) :
    create_inquiry name email phone zip_city project_type description source files ioFail
        (.ok id) w =
      (.ok ⟨id, "Anfrage erfolgreich übermittelt"⟩,
       { disk := writeAll w.disk files,
         inserted := w.inserted ++ [("inquiry",
           { name := name, email := email, phone := phone, zip_city := zip_city,
             project_type := project_type, description := description,
             files := files.map fileEntry,
             source := some (pyOr source "website") })] }) ∧
    (files.map fileEntry).length = files.length ∧
    (∀ i f_i, files.get? i = some f_i →
      (files.map fileEntry).get? i = some (fileEntry f_i) ∧
      (fileEntry f_i).size = some f_i.content.length) := by
  have hw := writeFiles_ok files ioFail 0 w.disk []
    (by intro j hj; simpa using hio j hj)
  refine ⟨?_, by simp, ?_⟩
  · simp [create_inquiry, hw, hmail]
  · intro i f_i hget
    refine ⟨?_, rfl⟩
    rw [get?_map_fileEntry, hget]
    rfl

/-- Witness for C1: the spec's example scenario, with a three-byte upload. -/
theorem create_inquiry_success_witness :
    create_inquiry "Max Mustermann" "max@example.com" "0123456789" "12345 Berlin" "Neubau"
        "Einfamilienhaus" none [⟨"plan.pdf", some "application/pdf", [10, 20, 30]⟩]
        (fun _ => none) (.ok "id123") ⟨[], []⟩ =
      (.ok ⟨"id123", "Anfrage erfolgreich übermittelt"⟩,
       { disk := [("uploads/plan.pdf", [10, 20, 30])],
         inserted := [("inquiry",
           { name := "Max Mustermann", email := "max@example.com", phone := "0123456789",
             zip_city := "12345 Berlin", project_type := "Neubau",
             description := "Einfamilienhaus",
             files := [{ filename := "plan.pdf", content_type := some "application/pdf",
                         size := some 3 }],
             source := some "website" })] }) := by
  have h := (create_inquiry_success "Max Mustermann" "max@example.com" "0123456789"
    "12345 Berlin" "Neubau" "Einfamilienhaus" none
    [⟨"plan.pdf", some "application/pdf", [10, 20, 30]⟩]
    (fun _ => none) "id123" ⟨[], []⟩ (fun _ _ => rfl) (by decide)).1
  rw [h]
  decide

/-- Claim C2: the first failing file I/O aborts the request with a message
starting "Fehler beim Datei-Upload: "; only the files before it were written
(and stay written), no later file is attempted, and nothing is inserted,
whatever the store would have answered. -/
theorem create_inquiry_upload_failure
    (name email phone zip_city project_type description : String)
    (source : Option String) (files : List FileUpload)
    (ioFail : Nat → Option String) (dbResult : Except String String) (w : World)
    (j : Nat) (e : String)
    (hj : j < files.length) (hf : ioFail j = some e)
    (hok : ∀ k, k < j → ioFail k = none) :
    create_inquiry name email phone zip_city project_type description source files ioFail
        dbResult w =
      (.error ⟨500, "Fehler beim Datei-Upload: " ++ pyTruncate e 100⟩,
       { disk := writeAll w.disk (files.take j), inserted := w.inserted }) := by
  have hw := writeFiles_fail files ioFail 0 j e w.disk [] hj (by simpa using hf)
    (by intro k hk; simpa using hok k hk)
  simp [create_inquiry, hw]

/-- Witness for C2: the write of the second of two uploads raises
"disk full"; the first upload stays on disk and no record is inserted. -/
theorem create_inquiry_upload_failure_witness :
    create_inquiry "A" "a@b.de" "1" "2" "3" "4" none
        [⟨"f.txt", none, [7]⟩, ⟨"g.txt", none, [8]⟩]
        (fun i => if i = 1 then some "disk full" else none) (.ok "id1") ⟨[], []⟩ =
      (.error ⟨500, "Fehler beim Datei-Upload: disk full"⟩,
       { disk := [("uploads/f.txt", [7])], inserted := [] }) := by
  have h := create_inquiry_upload_failure "A" "a@b.de" "1" "2" "3" "4" none
    [⟨"f.txt", none, [7]⟩, ⟨"g.txt", none, [8]⟩]
    (fun i => if i = 1 then some "disk full" else none) (.ok "id1") ⟨[], []⟩
    1 "disk full" (by decide) (by decide)
    (by intro k hk; have hk0 : k = 0 := by omega
        subst hk0; rfl)
  rw [h]
  decide

/-- Claim C3: a failing insert yields an error whose detail starts with
"Datenbankfehler:", the handler still returns (no crash), no success
response is produced, and the files written for the request stay on disk
while nothing is inserted into the store. -/
theorem create_inquiry_db_failure
    (name email phone zip_city project_type description : String)
    (source : Option String) (files : List FileUpload)
    (ioFail : Nat → Option String) (e : String) (w : World)
    (hio : ∀ i, i < files.length → ioFail i = none)
    (hmail : isValidEmail email = true) :
    create_inquiry name email phone zip_city project_type description source files ioFail
        (.error e) w =
      (.error ⟨500, "Datenbankfehler: " ++ pyTruncate e 100⟩,
       { disk := writeAll w.disk files, inserted := w.inserted }) := by
  have hw := writeFiles_ok files ioFail 0 w.disk []
    (by intro j hj; simpa using hio j hj)
  simp [create_inquiry, hw, hmail]

/-- Witness for C3: the store raises "conn refused" after one upload was
written; the upload stays on disk, nothing is inserted. -/
theorem create_inquiry_db_failure_witness :
    create_inquiry "A" "a@b.de" "1" "2" "3" "4" (some "landing")
        [⟨"f.txt", none, [7]⟩] (fun _ => none) (.error "conn refused") ⟨[], []⟩ =
      (.error ⟨500, "Datenbankfehler: conn refused"⟩,
       { disk := [("uploads/f.txt", [7])], inserted := [] }) := by
  have h := create_inquiry_db_failure "A" "a@b.de" "1" "2" "3" "4" (some "landing")
    [⟨"f.txt", none, [7]⟩] (fun _ => none) "conn refused" ⟨[], []⟩
    (fun _ _ => rfl) (by decide)
  rw [h]
  decide

/-- Claim C4: a submission whose email fails the syntax check always ends in
an error and inserts nothing into the store, whatever the file I/O and store
oracles do. -/
theorem create_inquiry_invalid_email
    (name email phone zip_city project_type description : String)
    (source : Option String) (files : List FileUpload)
    (ioFail : Nat → Option String) (dbResult : Except String String) (w : World)
    (hmail : isValidEmail email = false) :
    (∃ err, (create_inquiry name email phone zip_city project_type description source files
        ioFail dbResult w).1 = .error err) ∧
    ((create_inquiry name email phone zip_city project_type description source files
        ioFail dbResult w).2).inserted = w.inserted := by
  rcases h : writeFiles files ioFail 0 w.disk [] with ⟨disk1, r⟩
  cases r with
  | error e =>
    refine ⟨⟨⟨500, "Fehler beim Datei-Upload: " ++ pyTruncate e 100⟩, ?_⟩, ?_⟩ <;>
      simp [create_inquiry, h]
  | ok meta =>
    refine ⟨⟨⟨500, "Internal Server Error"⟩, ?_⟩, ?_⟩ <;>
      simp [create_inquiry, h, hmail]

/-- Witness for C4: the spec's example "not-an-email", with one upload and a
store that would have accepted the record. -/
theorem create_inquiry_invalid_email_witness :
    (∃ err, (create_inquiry "A" "not-an-email" "1" "2" "3" "4" none
        [⟨"f.txt", none, [7]⟩] (fun _ => none) (.ok "id1") ⟨[], []⟩).1 = .error err) ∧
    ((create_inquiry "A" "not-an-email" "1" "2" "3" "4" none
        [⟨"f.txt", none, [7]⟩] (fun _ => none) (.ok "id1") ⟨[], []⟩).2).inserted = [] :=
  create_inquiry_invalid_email "A" "not-an-email" "1" "2" "3" "4" none
    [⟨"f.txt", none, [7]⟩] (fun _ => none) (.ok "id1") ⟨[], []⟩ (by decide)

/-- Claim C6: on success the stored record's source equals the supplied value
when a non-empty one is supplied, and "website" when the field is absent or
the empty string. -/
theorem create_inquiry_source_field
    (name email phone zip_city project_type description : String)
    (source : Option String) (files : List FileUpload)
    (ioFail : Nat → Option String) (id : String) (w : World)
    (hio : ∀ i, i < files.length → ioFail i = none)
    (hmail : isValidEmail email = true) :
    ∃ rec, ((create_inquiry name email phone zip_city project_type description source files
        ioFail (.ok id) w).2).inserted = w.inserted ++ [("inquiry", rec)] ∧
      ((source = none ∨ source = some "") → rec.source = some "website") ∧
      (∀ s, source = some s → s ≠ "" → rec.source = some s) := by
  have hw := writeFiles_ok files ioFail 0 w.disk []
    (by intro j hj; simpa using hio j hj)
  refine ⟨{ name := name, email := email, phone := phone, zip_city := zip_city,
            project_type := project_type, description := description,
            files := files.map fileEntry, source := some (pyOr source "website") },
    ?_, ?_, ?_⟩
  · simp [create_inquiry, hw, hmail]
  · rintro (h | h) <;> simp [h, pyOr]
  · intro s hs hne
    simp [hs, pyOr, hne]

/-- Witness for C6: a submission without a source field; the stored record's
source is "website". -/
theorem create_inquiry_source_field_witness :
    ∃ rec, ((create_inquiry "A" "a@b.de" "1" "2" "3" "4" none [] (fun _ => none)
        (.ok "id1") ⟨[], []⟩).2).inserted = [] ++ [("inquiry", rec)] ∧
      (((none : Option String) = none ∨ (none : Option String) = some "") →
        rec.source = some "website") ∧
      (∀ s, (none : Option String) = some s → s ≠ "" → rec.source = some s) :=
  create_inquiry_source_field "A" "a@b.de" "1" "2" "3" "4" none [] (fun _ => none)
    "id1" ⟨[], []⟩ (fun _ h => absurd h (by simp)) (by decide)

/-- Claim C7 counterexample: an upload that declares the empty string as its
content type is a declared content type, yet the stored entry records
"application/octet-stream" instead of the declared value, because the
handler applies Python's `or` fallback to any falsy value. -/
theorem create_inquiry_content_type_cex :
    ((create_inquiry "A" "a@b.de" "1" "2" "3" "4" none
        [⟨"f.txt", some "", [7]⟩] (fun _ => none) (.ok "id1") ⟨[], []⟩).2).inserted.map
        (fun r => r.2.files.map (fun fl => fl.content_type))
      = [[some "application/octet-stream"]] ∧
    (some "" : Option String) ≠ some "application/octet-stream" := by
  constructor <;> decide

/-- Claim C7 (amended): for every uploaded file recorded in a stored Inquiry,
the entry's content_type equals the declared content type when a non-empty
one is declared, and "application/octet-stream" when the upload declares
none or declares the empty string. -/
theorem create_inquiry_content_type
    (name email phone zip_city project_type description : String)
    (source : Option String) (files : List FileUpload)
    (ioFail : Nat → Option String) (id : String) (w : World)
    (hio : ∀ i, i < files.length → ioFail i = none)
    (hmail : isValidEmail email = true) :
    ∃ rec, ((create_inquiry name email phone zip_city project_type description source files
        ioFail (.ok id) w).2).inserted = w.inserted ++ [("inquiry", rec)] ∧
      rec.files = files.map fileEntry ∧
      ∀ f ∈ files,
        ((f.content_type = none ∨ f.content_type = some "") →
          (fileEntry f).content_type = some "application/octet-stream") ∧
        (∀ c, f.content_type = some c → c ≠ "" → (fileEntry f).content_type = some c) := by
  have hw := writeFiles_ok files ioFail 0 w.disk []
    (by intro j hj; simpa using hio j hj)
  refine ⟨{ name := name, email := email, phone := phone, zip_city := zip_city,
            project_type := project_type, description := description,
            files := files.map fileEntry, source := some (pyOr source "website") },
    ?_, rfl, ?_⟩
  · simp [create_inquiry, hw, hmail]
  · intro f _
    constructor
    · rintro (h | h) <;> simp [fileEntry, h, pyOr]
    · intro c hc hne
      simp [fileEntry, hc, pyOr, hne]

/-- Witness for the amended C7: one upload with a declared non-empty content
type and one with none. -/
theorem create_inquiry_content_type_witness :
    ∃ rec, ((create_inquiry "A" "a@b.de" "1" "2" "3" "4" none
        [⟨"p.pdf", some "application/pdf", [1]⟩, ⟨"q.bin", none, [2]⟩]
        (fun _ => none) (.ok "id1") ⟨[], []⟩).2).inserted = [] ++ [("inquiry", rec)] ∧
      rec.files = [⟨"p.pdf", some "application/pdf", [1]⟩,
                   ⟨"q.bin", none, [2]⟩].map fileEntry ∧
      ∀ f ∈ [(⟨"p.pdf", some "application/pdf", [1]⟩ : FileUpload),
             ⟨"q.bin", none, [2]⟩],
        ((f.content_type = none ∨ f.content_type = some "") →
          (fileEntry f).content_type = some "application/octet-stream") ∧
        (∀ c, f.content_type = some c → c ≠ "" → (fileEntry f).content_type = some c) :=
  create_inquiry_content_type "A" "a@b.de" "1" "2" "3" "4" none
    [⟨"p.pdf", some "application/pdf", [1]⟩, ⟨"q.bin", none, [2]⟩]
    (fun _ => none) "id1" ⟨[], []⟩ (fun _ _ => rfl) (by decide)

/-- Claim C8 counterexample: a submission whose name, phone, zip_city,
project_type and description are all the empty string is accepted and
persisted — the schema only requires the fields to be present, so the claim
that every persisted record has non-empty strings in those fields is false. -/
theorem create_inquiry_empty_fields_cex :
    ((create_inquiry "" "max@example.com" "" "" "" "" none [] (fun _ => none)
        (.ok "id1") ⟨[], []⟩).1 = .ok ⟨"id1", "Anfrage erfolgreich übermittelt"⟩) ∧
    ((create_inquiry "" "max@example.com" "" "" "" "" none [] (fun _ => none)
        (.ok "id1") ⟨[], []⟩).2).inserted.map (fun r => r.2.name) = [""] := by
  constructor <;> decide

/-- Claim C8 (amended): every persisted Inquiry record carries exactly the
supplied strings for name, phone, zip_city, project_type and description;
they are stored as given and may be empty, since only the email is
syntax-checked. -/
theorem create_inquiry_persists_fields
    (name email phone zip_city project_type description : String)
    (source : Option String) (files : List FileUpload)
    (ioFail : Nat → Option String) (id : String) (w : World)
    (hio : ∀ i, i < files.length → ioFail i = none)
    (hmail : isValidEmail email = true) :
    ∃ rec, ((create_inquiry name email phone zip_city project_type description source files
        ioFail (.ok id) w).2).inserted = w.inserted ++ [("inquiry", rec)] ∧
      rec.name = name ∧ rec.phone = phone ∧ rec.zip_city = zip_city ∧
      rec.project_type = project_type ∧ rec.description = description := by
  have hw := writeFiles_ok files ioFail 0 w.disk []
    (by intro j hj; simpa using hio j hj)
  exact ⟨{ name := name, email := email, phone := phone, zip_city := zip_city,
           project_type := project_type, description := description,
           files := files.map fileEntry, source := some (pyOr source "website") },
    by simp [create_inquiry, hw, hmail], rfl, rfl, rfl, rfl, rfl⟩

/-- Witness for the amended C8: the empty strings themselves are persisted. -/
theorem create_inquiry_persists_fields_witness :
    ∃ rec, ((create_inquiry "" "max@example.com" "" "" "" "" none [] (fun _ => none)
        (.ok "id1") ⟨[], []⟩).2).inserted = [] ++ [("inquiry", rec)] ∧
      rec.name = "" ∧ rec.phone = "" ∧ rec.zip_city = "" ∧
      rec.project_type = "" ∧ rec.description = "" :=
  create_inquiry_persists_fields "" "max@example.com" "" "" "" "" none []
    (fun _ => none) "id1" ⟨[], []⟩ (fun _ h => absurd h (by simp)) (by decide)

/-- Claim C9: every outcome of the handler is either a full id-plus-message
success or an HTTP 500 error; upload and persistence failures carry their
class label followed by a diagnostic of at most 100 characters, and no other
response shape exists. -/
theorem create_inquiry_outcome_shape
    (name email phone zip_city project_type description : String)
    (source : Option String) (files : List FileUpload)
    (ioFail : Nat → Option String) (dbResult : Except String String) (w : World) :
    match (create_inquiry name email phone zip_city project_type description source files
        ioFail dbResult w).1 with
    | .ok r => r.message = "Anfrage erfolgreich übermittelt"
    | .error err => err.status = 500 ∧ ∃ d, d.length ≤ 100 ∧
        (err.detail = "Fehler beim Datei-Upload: " ++ d ∨
         err.detail = "Datenbankfehler: " ++ d ∨
         err.detail = d) := by
  rcases h : writeFiles files ioFail 0 w.disk [] with ⟨disk1, r⟩
  cases r with
  | error e =>
    have h1 : (create_inquiry name email phone zip_city project_type description source files
        ioFail dbResult w).1
        = .error ⟨500, "Fehler beim Datei-Upload: " ++ pyTruncate e 100⟩ := by
      simp [create_inquiry, h]
    rw [h1]
    exact ⟨rfl, pyTruncate e 100, pyTruncate_length e 100, Or.inl rfl⟩
  | ok meta =>
    cases hm : isValidEmail email with
    | true =>
      cases dbResult with
      | ok id =>
        have h1 : (create_inquiry name email phone zip_city project_type description source
            files ioFail (.ok id) w).1
            = .ok ⟨id, "Anfrage erfolgreich übermittelt"⟩ := by
          simp [create_inquiry, h, hm]
        rw [h1]
      | error e =>
        have h1 : (create_inquiry name email phone zip_city project_type description source
            files ioFail (.error e) w).1
            = .error ⟨500, "Datenbankfehler: " ++ pyTruncate e 100⟩ := by
          simp [create_inquiry, h, hm]
        rw [h1]
        exact ⟨rfl, pyTruncate e 100, pyTruncate_length e 100, Or.inr (Or.inl rfl)⟩
    | false =>
      have h1 : (create_inquiry name email phone zip_city project_type description source
          files ioFail dbResult w).1
          = .error ⟨500, "Internal Server Error"⟩ := by
        simp [create_inquiry, h, hm]
      rw [h1]
      exact ⟨rfl, "Internal Server Error", by decide, Or.inr (Or.inr rfl)⟩

/-- Claim C10: the file loop runs before any field validation: when every
write succeeds and the email is malformed, the request fails, yet all files
are on disk and nothing was inserted. -/
theorem create_inquiry_writes_before_validation
    (name email phone zip_city project_type description : String)
    (source : Option String) (files : List FileUpload)
    (ioFail : Nat → Option String) (dbResult : Except String String) (w : World)
    (_hne : files ≠ [])
    (hio : ∀ i, i < files.length → ioFail i = none)
    (hmail : isValidEmail email = false) :
    (create_inquiry name email phone zip_city project_type description source files
        ioFail dbResult w).1 = .error ⟨500, "Internal Server Error"⟩ ∧
    ((create_inquiry name email phone zip_city project_type description source files
        ioFail dbResult w).2).disk = writeAll w.disk files ∧
    ((create_inquiry name email phone zip_city project_type description source files
        ioFail dbResult w).2).inserted = w.inserted := by
  have hw := writeFiles_ok files ioFail 0 w.disk []
    (by intro j hj; simpa using hio j hj)
  refine ⟨?_, ?_, ?_⟩ <;> simp [create_inquiry, hw, hmail]

/-- Witness for C10: a malformed email with one upload; the upload is on disk
and nothing is inserted. -/
theorem create_inquiry_writes_before_validation_witness :
    (create_inquiry "A" "not-an-email" "1" "2" "3" "4" none
        [⟨"f.txt", none, [7]⟩] (fun _ => none) (.ok "id1") ⟨[], []⟩).1
      = .error ⟨500, "Internal Server Error"⟩ ∧
    ((create_inquiry "A" "not-an-email" "1" "2" "3" "4" none
        [⟨"f.txt", none, [7]⟩] (fun _ => none) (.ok "id1") ⟨[], []⟩).2).disk
      = writeAll [] [⟨"f.txt", none, [7]⟩] ∧
    ((create_inquiry "A" "not-an-email" "1" "2" "3" "4" none
        [⟨"f.txt", none, [7]⟩] (fun _ => none) (.ok "id1") ⟨[], []⟩).2).inserted = [] :=
  create_inquiry_writes_before_validation "A" "not-an-email" "1" "2" "3" "4" none
    [⟨"f.txt", none, [7]⟩] (fun _ => none) (.ok "id1") ⟨[], []⟩
    (by decide) (fun _ _ => rfl) (by decide)
